import Mathlib

/-!
Shallow embedding of `src/scene/scene.rs` from the assimp-rs repository:
the `Scene` / `SceneMut` ownership wrappers over a foreign `AiScene`
object, their read accessors, the `Deref`-based read exposure, the
`From<Scene> for SceneMut` conversion and the two `Drop` implementations.

Pointers are modelled as natural numbers (0 is the null pointer); the
foreign heap is a total map from addresses to `AiScene` records; the
per-kind foreign arrays are modelled as read functions from array index
to the stored element pointer, matching how the code only ever reads
them through `from_raw_parts` and `offset`.
-/

namespace AssimpRs

/-- The fields of the foreign `ffi::AiScene` structure that this core
reads: the flag bitset, the root node pointer, and for each entity kind
the element count together with the contiguous array of per-item opaque
pointers (modelled as a read function: index to stored pointer). -/
structure AiScene where
  flags : Nat
  root_node : Nat
  num_meshes : Nat
  meshes : Nat → Nat
  num_materials : Nat
  materials : Nat → Nat
  num_animations : Nat
  animations : Nat → Nat
  num_textures : Nat
  textures : Nat → Nat
  num_lights : Nat
  lights : Nat → Nat
  num_cameras : Nat
  cameras : Nat → Nat

/-- Foreign flag constant `AI_SCENE_FLAGS_INCOMPLETE` (bit 0, value 0x1),
pinned to the value published by the foreign library. -/
def AI_SCENE_FLAGS_INCOMPLETE : Nat := 1

/-- Foreign flag constant `AI_SCENE_FLAGS_VALIDATED` (bit 1, value 0x2). -/
def AI_SCENE_FLAGS_VALIDATED : Nat := 2

/-- Foreign flag constant `AI_SCENE_FLAGS_VALIDATION_WARNING` (bit 2, value 0x4). -/
def AI_SCENE_FLAGS_VALIDATION_WARNING : Nat := 4

/-- Foreign flag constant `AI_SCENE_FLAGS_NON_VERBOSE_FORMAT` (bit 3, value 0x8). -/
def AI_SCENE_FLAGS_NON_VERBOSE_FORMAT : Nat := 8

/-- Foreign flag constant `AI_SCENE_FLAGS_TERRAIN` (bit 4, value 0x10). -/
def AI_SCENE_FLAGS_TERRAIN : Nat := 16

/-- `flags.contains(c)` of the bitflags type: every bit of `c` is set in `f`. -/
def flagsContains (f c : Nat) : Bool := f &&& c == c

/-- Safe wrapper around an opaque foreign mesh pointer (`Mesh`). -/
structure Mesh where
  ptr : Nat
deriving DecidableEq, Repr

/-- `Mesh::new`: the single internal constructor taking the foreign pointer. -/
def Mesh.new (p : Nat) : Mesh := ⟨p⟩

/-- Safe wrapper around an opaque foreign material pointer (`Material`). -/
structure Material where
  ptr : Nat
deriving DecidableEq, Repr

/-- `Material::new`. -/
def Material.new (p : Nat) : Material := ⟨p⟩

/-- Safe wrapper around an opaque foreign animation pointer (`Animation`). -/
structure Animation where
  ptr : Nat
deriving DecidableEq, Repr

/-- `Animation::new`. -/
def Animation.new (p : Nat) : Animation := ⟨p⟩

/-- Safe wrapper around an opaque foreign texture pointer (`Texture`). -/
structure Texture where
  ptr : Nat
deriving DecidableEq, Repr

/-- `Texture::new`. -/
def Texture.new (p : Nat) : Texture := ⟨p⟩

/-- Safe wrapper around an opaque foreign light pointer (`Light`). -/
structure Light where
  ptr : Nat
deriving DecidableEq, Repr

/-- `Light::new`. -/
def Light.new (p : Nat) : Light := ⟨p⟩

/-- Safe wrapper around an opaque foreign camera pointer (`Camera`). -/
structure Camera where
  ptr : Nat
deriving DecidableEq, Repr

/-- `Camera::new`. -/
def Camera.new (p : Nat) : Camera := ⟨p⟩

/-- Safe wrapper around an opaque foreign node pointer (`Node`). -/
structure Node where
  ptr : Nat
deriving DecidableEq, Repr

/-- `Node::new`. -/
def Node.new (p : Nat) : Node := ⟨p⟩

/-- The foreign heap: contents of the `AiScene` object at each address. -/
def Heap : Type := Nat → AiScene

/-- `pub struct Scene(*const AiScene)`: immutable, importer-owned handle. -/
structure Scene where
  ptr : Nat
deriving DecidableEq, Repr

/-- `pub struct SceneMut(*mut AiScene)`: mutable, copy-owned handle. -/
structure SceneMut where
  ptr : Nat
deriving DecidableEq, Repr

/-- The private `Deref for Scene` impl: `&*self.0`, reading the foreign
scene object the handle points at. -/
def Scene.deref (H : Heap) (s : Scene) : AiScene := H s.ptr

/-- `Scene::is_incomplete`: `self.flags.contains(AI_SCENE_FLAGS_INCOMPLETE)`. -/
def Scene.is_incomplete (H : Heap) (s : Scene) : Bool :=
  flagsContains (s.deref H).flags AI_SCENE_FLAGS_INCOMPLETE

/-- `Scene::is_validated`: `self.flags.contains(AI_SCENE_FLAGS_VALIDATED)`. -/
def Scene.is_validated (H : Heap) (s : Scene) : Bool :=
  flagsContains (s.deref H).flags AI_SCENE_FLAGS_VALIDATED

/-- `Scene::has_validation_warning`:
`self.flags.contains(AI_SCENE_FLAGS_VALIDATION_WARNING)`. -/
def Scene.has_validation_warning (H : Heap) (s : Scene) : Bool :=
  flagsContains (s.deref H).flags AI_SCENE_FLAGS_VALIDATION_WARNING

/-- `Scene::is_non_verbose_format`:
`self.flags.contains(AI_SCENE_FLAGS_NON_VERBOSE_FORMAT)`. -/
def Scene.is_non_verbose_format (H : Heap) (s : Scene) : Bool :=
  flagsContains (s.deref H).flags AI_SCENE_FLAGS_NON_VERBOSE_FORMAT

/-- `Scene::is_terrain`: `self.flags.contains(AI_SCENE_FLAGS_TERRAIN)`. -/
def Scene.is_terrain (H : Heap) (s : Scene) : Bool :=
  flagsContains (s.deref H).flags AI_SCENE_FLAGS_TERRAIN

/-- `Scene::root_node`: `Node::new(self.root_node)`. -/
def Scene.root_node (H : Heap) (s : Scene) : Node :=
  Node.new (s.deref H).root_node

/-- `Scene::num_meshes`: returns the count field directly. -/
def Scene.num_meshes (H : Heap) (s : Scene) : Nat := (s.deref H).num_meshes

/-- `Scene::meshes`: `from_raw_parts(self.meshes, num_meshes as usize)`,
each element wrapped by `Mesh::new`, in array order. -/
def Scene.meshes (H : Heap) (s : Scene) : List Mesh :=
  (List.range (s.deref H).num_meshes).map (fun i => Mesh.new ((s.deref H).meshes i))

/-- `Scene::mesh(id)`: `assert!(id < num_meshes)` then
`Mesh::new(*(self.meshes.offset(id)))`; the failed assertion (a panic)
is modelled as `none`. -/
def Scene.mesh (H : Heap) (s : Scene) (id : Nat) : Option Mesh :=
  if id < (s.deref H).num_meshes then some (Mesh.new ((s.deref H).meshes id))
  else none

/-- `Scene::num_materials`. -/
def Scene.num_materials (H : Heap) (s : Scene) : Nat := (s.deref H).num_materials

/-- `Scene::materials`. -/
def Scene.materials (H : Heap) (s : Scene) : List Material :=
  (List.range (s.deref H).num_materials).map
    (fun i => Material.new ((s.deref H).materials i))

/-- `Scene::num_animations`. -/
def Scene.num_animations (H : Heap) (s : Scene) : Nat := (s.deref H).num_animations

/-- `Scene::animations`. -/
def Scene.animations (H : Heap) (s : Scene) : List Animation :=
  (List.range (s.deref H).num_animations).map
    (fun i => Animation.new ((s.deref H).animations i))

/-- `Scene::num_textures`. -/
def Scene.num_textures (H : Heap) (s : Scene) : Nat := (s.deref H).num_textures

/-- `Scene::textures`. -/
def Scene.textures (H : Heap) (s : Scene) : List Texture :=
  (List.range (s.deref H).num_textures).map
    (fun i => Texture.new ((s.deref H).textures i))

/-- `Scene::num_lights`. -/
def Scene.num_lights (H : Heap) (s : Scene) : Nat := (s.deref H).num_lights

/-- `Scene::lights`. -/
def Scene.lights (H : Heap) (s : Scene) : List Light :=
  (List.range (s.deref H).num_lights).map
    (fun i => Light.new ((s.deref H).lights i))

/-- `Scene::num_cameras`. -/
def Scene.num_cameras (H : Heap) (s : Scene) : Nat := (s.deref H).num_cameras

/-- `Scene::cameras`. -/
def Scene.cameras (H : Heap) (s : Scene) : List Camera :=
  (List.range (s.deref H).num_cameras).map
    (fun i => Camera.new ((s.deref H).cameras i))

/-- `Deref for SceneMut`: `transmute(self)`, reinterpreting the
single-pointer `SceneMut` as a `Scene` over the same pointer value. -/
def SceneMut.derefScene (m : SceneMut) : Scene := ⟨m.ptr⟩

/-- `scene_mut.is_incomplete()` via auto-deref through `Deref for SceneMut`. -/
def SceneMut.is_incomplete (H : Heap) (m : SceneMut) : Bool :=
  Scene.is_incomplete H m.derefScene

/-- `scene_mut.is_validated()` via auto-deref. -/
def SceneMut.is_validated (H : Heap) (m : SceneMut) : Bool :=
  Scene.is_validated H m.derefScene

/-- `scene_mut.has_validation_warning()` via auto-deref. -/
def SceneMut.has_validation_warning (H : Heap) (m : SceneMut) : Bool :=
  Scene.has_validation_warning H m.derefScene

/-- `scene_mut.is_non_verbose_format()` via auto-deref. -/
def SceneMut.is_non_verbose_format (H : Heap) (m : SceneMut) : Bool :=
  Scene.is_non_verbose_format H m.derefScene

/-- `scene_mut.is_terrain()` via auto-deref. -/
def SceneMut.is_terrain (H : Heap) (m : SceneMut) : Bool :=
  Scene.is_terrain H m.derefScene

/-- `scene_mut.root_node()` via auto-deref. -/
def SceneMut.root_node (H : Heap) (m : SceneMut) : Node :=
  Scene.root_node H m.derefScene

/-- `scene_mut.num_meshes()` via auto-deref. -/
def SceneMut.num_meshes (H : Heap) (m : SceneMut) : Nat :=
  Scene.num_meshes H m.derefScene

/-- `scene_mut.meshes()` via auto-deref. -/
def SceneMut.meshes (H : Heap) (m : SceneMut) : List Mesh :=
  Scene.meshes H m.derefScene

/-- `scene_mut.mesh(id)` via auto-deref. -/
def SceneMut.mesh (H : Heap) (m : SceneMut) (id : Nat) : Option Mesh :=
  Scene.mesh H m.derefScene id

/-- `scene_mut.num_materials()` via auto-deref. -/
def SceneMut.num_materials (H : Heap) (m : SceneMut) : Nat :=
  Scene.num_materials H m.derefScene

/-- `scene_mut.materials()` via auto-deref. -/
def SceneMut.materials (H : Heap) (m : SceneMut) : List Material :=
  Scene.materials H m.derefScene

/-- `scene_mut.num_animations()` via auto-deref. -/
def SceneMut.num_animations (H : Heap) (m : SceneMut) : Nat :=
  Scene.num_animations H m.derefScene

/-- `scene_mut.animations()` via auto-deref. -/
def SceneMut.animations (H : Heap) (m : SceneMut) : List Animation :=
  Scene.animations H m.derefScene

/-- `scene_mut.num_textures()` via auto-deref. -/
def SceneMut.num_textures (H : Heap) (m : SceneMut) : Nat :=
  Scene.num_textures H m.derefScene

/-- `scene_mut.textures()` via auto-deref. -/
def SceneMut.textures (H : Heap) (m : SceneMut) : List Texture :=
  Scene.textures H m.derefScene

/-- `scene_mut.num_lights()` via auto-deref. -/
def SceneMut.num_lights (H : Heap) (m : SceneMut) : Nat :=
  Scene.num_lights H m.derefScene

/-- `scene_mut.lights()` via auto-deref. -/
def SceneMut.lights (H : Heap) (m : SceneMut) : List Light :=
  Scene.lights H m.derefScene

/-- `scene_mut.num_cameras()` via auto-deref. -/
def SceneMut.num_cameras (H : Heap) (m : SceneMut) : Nat :=
  Scene.num_cameras H m.derefScene

/-- `scene_mut.cameras()` via auto-deref. -/
def SceneMut.cameras (H : Heap) (m : SceneMut) : List Camera :=
  Scene.cameras H m.derefScene

/-!
The foreign library entry points used by the conversion and the two
`Drop` impls are external (the `ffi` crate binds them); their effect is
modelled from the spec as a small operational state: a heap, the sets of
live importer-owned and copy-owned pointers, and a trace of the foreign
calls made, which lets exactly-once release obligations be stated.
-/

/-- One call into the foreign library, as recorded in the trace. -/
inductive FFICall where
  | copyScene (src dst : Nat)
  | releaseImport (p : Nat)
  | freeScene (p : Nat)
deriving DecidableEq, Repr

/-- The foreign-library world: heap contents, live importer-owned and
copy-owned allocations, the trace of foreign calls, and an allocation
counter (every live pointer is at most `fresh`, so `fresh + 1` is new). -/
structure World where
  heap : Heap
  liveImport : List Nat
  liveCopy : List Nat
  trace : List FFICall
  fresh : Nat

/-- Contents of a deallocated scene object: reading through a released
pointer no longer sees the original data. -/
def deadScene : AiScene where
  flags := 0
  root_node := 0
  num_meshes := 0
  meshes := fun _ => 0
  num_materials := 0
  materials := fun _ => 0
  num_animations := 0
  animations := fun _ => 0
  num_textures := 0
  textures := fun _ => 0
  num_lights := 0
  lights := fun _ => 0
  num_cameras := 0
  cameras := fun _ => 0

/-- Modelled from the spec: `aiCopyScene` (external, bound by the `ffi`
crate), the "copy scene" entry point taking a source pointer and
producing a fresh owned pointer to a deep copy of the source scene,
observably equal to the source at the moment of the call. -/
def aiCopyScene (w : World) (src : Nat) : World × Nat :=
  let p := w.fresh + 1
  ({ heap := fun q => if q = p then w.heap src else w.heap q
     liveImport := w.liveImport
     liveCopy := w.liveCopy ++ [p]
     trace := w.trace ++ [FFICall.copyScene src p]
     fresh := p }, p)

/-- Modelled from the spec: `aiReleaseImport` (external, bound by the
`ffi` crate), the "release import" entry point deallocating an
importer-owned scene. -/
def aiReleaseImport (w : World) (p : Nat) : World :=
  { w with
    heap := fun q => if q = p then deadScene else w.heap q
    liveImport := w.liveImport.erase p
    trace := w.trace ++ [FFICall.releaseImport p] }

/-- Modelled from the spec: `aiFreeScene` (external, bound by the `ffi`
crate), the "free scene" entry point deallocating a copy-owned scene. -/
def aiFreeScene (w : World) (p : Nat) : World :=
  { w with
    heap := fun q => if q = p then deadScene else w.heap q
    liveCopy := w.liveCopy.erase p
    trace := w.trace ++ [FFICall.freeScene p] }

/-- `Drop for Scene`: `aiReleaseImport(self.0)`. -/
def Scene.drop (w : World) (s : Scene) : World := aiReleaseImport w s.ptr

/-- `Drop for SceneMut`: `aiFreeScene(self.0)`. -/
def SceneMut.drop (w : World) (m : SceneMut) : World := aiFreeScene w m.ptr

/-- `From<Scene> for SceneMut::from(scene)`: null-initialize the out
slot, call `aiCopyScene(scene.0, &mut new_scene)`, build
`SceneMut(new_scene)`; the `scene` parameter was moved into the
function, so its `Drop` (which calls `aiReleaseImport` on the original
pointer) runs at the end of the body, before the conversion returns. -/
def SceneMut.from_scene (w : World) (scene : Scene) : World × SceneMut :=
  let cp := aiCopyScene w scene.ptr
  let w2 := Scene.drop cp.1 scene
  (w2, ⟨cp.2⟩)

/-- The pointer dataflow of `From<Scene> for SceneMut::from` with the
copy routine abstracted by its effect on the null-initialized out slot:
`some p` models a call that wrote `p` into the slot, `none` a call that
returned without writing it (failure), leaving the initial
`ptr::null_mut()` value. -/
def SceneMut.from_raw (copyOut : Option Nat) : SceneMut :=
  let new_scene : Nat := 0
  match copyOut with
  | some p => ⟨p⟩
  | none => ⟨new_scene⟩

/-!
To state idempotence and order-insensitivity of the entity accessors,
the read API is reified as a call language evaluated against a world;
each call reads the heap and leaves the world unchanged, exactly as the
Rust accessors take `&self` and perform no writes.
-/

/-- One entity-accessor call of the read API (counts and snapshots). -/
inductive AccCall where
  | numMeshes
  | numMaterials
  | numAnimations
  | numTextures
  | numLights
  | numCameras
  | meshes
  | materials
  | animations
  | textures
  | lights
  | cameras
deriving DecidableEq, Repr

/-- The result of one entity-accessor call. -/
inductive AccResult where
  | count (n : Nat)
  | meshSnap (xs : List Mesh)
  | materialSnap (xs : List Material)
  | animationSnap (xs : List Animation)
  | textureSnap (xs : List Texture)
  | lightSnap (xs : List Light)
  | cameraSnap (xs : List Camera)
deriving DecidableEq, Repr

/-- Evaluate one accessor call against a heap: what a first call on a
fresh handle returns. -/
def evalAcc (H : Heap) (s : Scene) : AccCall → AccResult
  | AccCall.numMeshes => AccResult.count (Scene.num_meshes H s)
  | AccCall.numMaterials => AccResult.count (Scene.num_materials H s)
  | AccCall.numAnimations => AccResult.count (Scene.num_animations H s)
  | AccCall.numTextures => AccResult.count (Scene.num_textures H s)
  | AccCall.numLights => AccResult.count (Scene.num_lights H s)
  | AccCall.numCameras => AccResult.count (Scene.num_cameras H s)
  | AccCall.meshes => AccResult.meshSnap (Scene.meshes H s)
  | AccCall.materials => AccResult.materialSnap (Scene.materials H s)
  | AccCall.animations => AccResult.animationSnap (Scene.animations H s)
  | AccCall.textures => AccResult.textureSnap (Scene.textures H s)
  | AccCall.lights => AccResult.lightSnap (Scene.lights H s)
  | AccCall.cameras => AccResult.cameraSnap (Scene.cameras H s)

/-- Run one accessor call statefully: it re-reads the foreign array from
the current world and, being a `&self` read with no writes, returns the
world unchanged. -/
def stepAcc (w : World) (s : Scene) (c : AccCall) : World × AccResult :=
  (w, evalAcc w.heap s c)

/-- Run a sequence of accessor calls in order, threading the world. -/
def runAcc (w : World) (s : Scene) : List AccCall → World × List AccResult
  | [] => (w, [])
  | c :: cs =>
    let st := stepAcc w s c
    let rest := runAcc st.1 s cs
    (rest.1, st.2 :: rest.2)

/-!
Concrete scenes and worlds used by the scenario parts of the claims.
-/

/-- A scene with 3 meshes (pointers 100, 101, 102 in array order), 1
material (pointer 200) and all other counts 0. -/
def scene0 : AiScene where
  flags := 0
  root_node := 50
  num_meshes := 3
  meshes := fun i => 100 + i
  num_materials := 1
  materials := fun _ => 200
  num_animations := 0
  animations := fun _ => 0
  num_textures := 0
  textures := fun _ => 0
  num_lights := 0
  lights := fun _ => 0
  num_cameras := 0
  cameras := fun _ => 0

/-- A heap whose every address holds `scene0`. -/
def H0 : Heap := fun _ => scene0

/-- A handle at address 1. -/
def s0 : Scene := ⟨1⟩

/-- A scene whose flag bitset has only the validation-warning bit set. -/
def sceneVW : AiScene := { scene0 with flags := 4 }

/-- A heap whose every address holds `sceneVW`. -/
def HVW : Heap := fun _ => sceneVW

/-- A scene whose flag bitset has the incomplete and terrain bits set. -/
def sceneMulti : AiScene := { scene0 with flags := 17 }

/-- A heap whose every address holds `sceneMulti`. -/
def HMulti : Heap := fun _ => sceneMulti

/-- An empty scene: all entity counts zero. -/
def emptyScene : AiScene := { scene0 with num_meshes := 0, num_materials := 0 }

/-- A world holding one importer-owned empty scene at address 7. -/
def worldE : World where
  heap := fun _ => emptyScene
  liveImport := [7]
  liveCopy := []
  trace := []
  fresh := 9

/-- A world holding one importer-owned scene (`scene0`) at address 5. -/
def worldC : World where
  heap := fun _ => scene0
  liveImport := [5]
  liveCopy := []
  trace := []
  fresh := 10

/-!
Helper lemmas.
-/

/-- Indexing a snapshot built by mapping a constructor over `List.range`. -/
theorem range_map_getElem {α : Type} (f : Nat → α) (n i : Nat) :
    ((List.range n).map f)[i]? = if i < n then some (f i) else none := by
  by_cases h : i < n
  · simp [List.getElem?_map, List.getElem?_range, h]
  · have hl : ((List.range n).map f).length ≤ i := by
      simpa using Nat.le_of_not_lt h
    simp [List.getElem?_eq_none hl, h]

/-- A bitflags `contains` test against a single-bit constant is exactly
the test of that bit. -/
theorem flagsContains_two_pow (f k : Nat) :
    flagsContains f (2 ^ k) = f.testBit k := by
  unfold flagsContains
  rw [Nat.and_two_pow]
  cases h : f.testBit k
  · have h2 : (0 : Nat) < 2 ^ k := Nat.pos_pow_of_pos k (by norm_num)
    simp only [Bool.toNat_false, Nat.zero_mul, beq_eq_false_iff_ne, ne_eq]
    exact fun hc => h2.ne hc
  · simp

/-!
Claim theorems.
-/

/-- C1: for every entity kind, the all()-style accessor returns a
sequence whose length equals the corresponding count accessor and whose
i-th element, for every i below the count, wraps exactly the i-th
pointer of the foreign array in array order; and in the concrete
scenario with 3 meshes, 1 material and all other counts 0, `meshes()`
has the 3 wrapped mesh pointers in array order, `materials()` exactly
one, and the other four accessors are empty. -/
theorem claim_C1_accessor_snapshots :
    (∀ (H : Heap) (s : Scene),
      (Scene.meshes H s).length = Scene.num_meshes H s ∧
      ∀ i, (Scene.meshes H s)[i]? =
        if i < Scene.num_meshes H s then
          some (Mesh.new ((Scene.deref H s).meshes i)) else none) ∧
    (∀ (H : Heap) (s : Scene),
      (Scene.materials H s).length = Scene.num_materials H s ∧
      ∀ i, (Scene.materials H s)[i]? =
        if i < Scene.num_materials H s then
          some (Material.new ((Scene.deref H s).materials i)) else none) ∧
    (∀ (H : Heap) (s : Scene),
      (Scene.animations H s).length = Scene.num_animations H s ∧
      ∀ i, (Scene.animations H s)[i]? =
        if i < Scene.num_animations H s then
          some (Animation.new ((Scene.deref H s).animations i)) else none) ∧
    (∀ (H : Heap) (s : Scene),
      (Scene.textures H s).length = Scene.num_textures H s ∧
      ∀ i, (Scene.textures H s)[i]? =
        if i < Scene.num_textures H s then
          some (Texture.new ((Scene.deref H s).textures i)) else none) ∧
    (∀ (H : Heap) (s : Scene),
      (Scene.lights H s).length = Scene.num_lights H s ∧
      ∀ i, (Scene.lights H s)[i]? =
        if i < Scene.num_lights H s then
          some (Light.new ((Scene.deref H s).lights i)) else none) ∧
    (∀ (H : Heap) (s : Scene),
      (Scene.cameras H s).length = Scene.num_cameras H s ∧
      ∀ i, (Scene.cameras H s)[i]? =
        if i < Scene.num_cameras H s then
          some (Camera.new ((Scene.deref H s).cameras i)) else none) ∧
    (Scene.meshes H0 s0 = [Mesh.new 100, Mesh.new 101, Mesh.new 102] ∧
     (Scene.meshes H0 s0).length = 3 ∧
     Scene.materials H0 s0 = [Material.new 200] ∧
     Scene.animations H0 s0 = [] ∧
     Scene.textures H0 s0 = [] ∧
     Scene.lights H0 s0 = [] ∧
     Scene.cameras H0 s0 = [] ∧
     Scene.num_animations H0 s0 = 0) := by
  refine ⟨?_, ?_, ?_, ?_, ?_, ?_, ?_⟩
  · exact fun H s =>
      ⟨by simp [Scene.meshes, Scene.num_meshes], fun i => range_map_getElem _ _ i⟩
  · exact fun H s =>
      ⟨by simp [Scene.materials, Scene.num_materials],
       fun i => range_map_getElem _ _ i⟩
  · exact fun H s =>
      ⟨by simp [Scene.animations, Scene.num_animations],
       fun i => range_map_getElem _ _ i⟩
  · exact fun H s =>
      ⟨by simp [Scene.textures, Scene.num_textures],
       fun i => range_map_getElem _ _ i⟩
  · exact fun H s =>
      ⟨by simp [Scene.lights, Scene.num_lights],
       fun i => range_map_getElem _ _ i⟩
  · exact fun H s =>
      ⟨by simp [Scene.cameras, Scene.num_cameras],
       fun i => range_map_getElem _ _ i⟩
  · exact ⟨by decide, by decide, by decide, by decide, by decide, by decide,
      by decide, by decide⟩

/-- C2: `mesh(i)` panics (modelled as `none`) exactly when
`i >= num_meshes()`, and returns normally (a `some` value) exactly when
`i < num_meshes()`. -/
theorem claim_C2_mesh_bounds_panic :
    ∀ (H : Heap) (s : Scene) (i : Nat),
      Scene.mesh H s i = none ↔ Scene.num_meshes H s ≤ i := by
  intro H s i
  unfold Scene.mesh Scene.num_meshes
  split_ifs with h
  · simp only [reduceCtorEq, false_iff]
    omega
  · simp only [true_iff]
    omega

/-- C6: each of the five flag predicates tests exactly its own bit of
the flag bitset (bits 0 to 4 in declaration order) for every bitset;
with only the validation-warning bit (0x4) set, only
`has_validation_warning()` holds; with the incomplete (0x1) and terrain
(0x10) bits both set, exactly `is_incomplete()` and `is_terrain()`
hold. -/
theorem claim_C6_flag_predicates :
    (∀ (H : Heap) (s : Scene),
      Scene.is_incomplete H s = (Scene.deref H s).flags.testBit 0 ∧
      Scene.is_validated H s = (Scene.deref H s).flags.testBit 1 ∧
      Scene.has_validation_warning H s = (Scene.deref H s).flags.testBit 2 ∧
      Scene.is_non_verbose_format H s = (Scene.deref H s).flags.testBit 3 ∧
      Scene.is_terrain H s = (Scene.deref H s).flags.testBit 4) ∧
    (Scene.has_validation_warning HVW s0 = true ∧
     Scene.is_incomplete HVW s0 = false ∧
     Scene.is_validated HVW s0 = false ∧
     Scene.is_non_verbose_format HVW s0 = false ∧
     Scene.is_terrain HVW s0 = false) ∧
    (Scene.is_incomplete HMulti s0 = true ∧
     Scene.is_terrain HMulti s0 = true ∧
     Scene.is_validated HMulti s0 = false ∧
     Scene.has_validation_warning HMulti s0 = false ∧
     Scene.is_non_verbose_format HMulti s0 = false) := by
  refine ⟨fun H s => ⟨?_, ?_, ?_, ?_, ?_⟩, by decide, by decide⟩
  · exact flagsContains_two_pow (Scene.deref H s).flags 0
  · exact flagsContains_two_pow (Scene.deref H s).flags 1
  · exact flagsContains_two_pow (Scene.deref H s).flags 2
  · exact flagsContains_two_pow (Scene.deref H s).flags 3
  · exact flagsContains_two_pow (Scene.deref H s).flags 4

/-- C7: for every index, indexing the `meshes()` snapshot agrees with
`mesh(i)` (same underlying wrapped pointer), and for every i below the
count both return the wrapper around the i-th pointer of the foreign
array; the accessors are pure functions of the unchanged underlying
data, so repeated calls return that same value. -/
theorem claim_C7_meshes_index_agrees_with_mesh :
    ∀ (H : Heap) (s : Scene) (i : Nat),
      (Scene.meshes H s)[i]? = Scene.mesh H s i ∧
      (i < Scene.num_meshes H s →
        Scene.mesh H s i = some (Mesh.new ((Scene.deref H s).meshes i))) := by
  intro H s i
  refine ⟨range_map_getElem _ _ i, fun h => if_pos h⟩

/-- Witness for C7 at the concrete scene `scene0` and index 1. -/
theorem claim_C7_witness :
    (Scene.meshes H0 s0)[1]? = Scene.mesh H0 s0 1 ∧
    Scene.mesh H0 s0 1 = some (Mesh.new 101) := by
  refine ⟨(claim_C7_meshes_index_agrees_with_mesh H0 s0 1).1, ?_⟩
  exact ((claim_C7_meshes_index_agrees_with_mesh H0 s0 1).2 (by decide)).trans
    (by decide)

/-- C4: every read operation of the immutable Scene API (five flag
predicates, root_node, six counts, six snapshots, mesh(i)) invoked on a
SceneMut through the Deref exposure yields the same result as on an
immutable Scene wrapping the same pointer; and a read call through that
exposure leaves the world untouched (no release, no mutation, no
foreign call recorded). -/
theorem claim_C4_scene_mut_read_equivalence :
    (∀ (H : Heap) (m : SceneMut),
      SceneMut.is_incomplete H m = Scene.is_incomplete H ⟨m.ptr⟩ ∧
      SceneMut.is_validated H m = Scene.is_validated H ⟨m.ptr⟩ ∧
      SceneMut.has_validation_warning H m = Scene.has_validation_warning H ⟨m.ptr⟩ ∧
      SceneMut.is_non_verbose_format H m = Scene.is_non_verbose_format H ⟨m.ptr⟩ ∧
      SceneMut.is_terrain H m = Scene.is_terrain H ⟨m.ptr⟩ ∧
      SceneMut.root_node H m = Scene.root_node H ⟨m.ptr⟩ ∧
      SceneMut.num_meshes H m = Scene.num_meshes H ⟨m.ptr⟩ ∧
      SceneMut.num_materials H m = Scene.num_materials H ⟨m.ptr⟩ ∧
      SceneMut.num_animations H m = Scene.num_animations H ⟨m.ptr⟩ ∧
      SceneMut.num_textures H m = Scene.num_textures H ⟨m.ptr⟩ ∧
      SceneMut.num_lights H m = Scene.num_lights H ⟨m.ptr⟩ ∧
      SceneMut.num_cameras H m = Scene.num_cameras H ⟨m.ptr⟩ ∧
      SceneMut.meshes H m = Scene.meshes H ⟨m.ptr⟩ ∧
      SceneMut.materials H m = Scene.materials H ⟨m.ptr⟩ ∧
      SceneMut.animations H m = Scene.animations H ⟨m.ptr⟩ ∧
      SceneMut.textures H m = Scene.textures H ⟨m.ptr⟩ ∧
      SceneMut.lights H m = Scene.lights H ⟨m.ptr⟩ ∧
      SceneMut.cameras H m = Scene.cameras H ⟨m.ptr⟩ ∧
      ∀ i, SceneMut.mesh H m i = Scene.mesh H ⟨m.ptr⟩ i) ∧
    (∀ (w : World) (m : SceneMut) (c : AccCall),
      stepAcc w m.derefScene c = (w, evalAcc w.heap m.derefScene c)) :=
  ⟨fun _ _ => ⟨rfl, rfl, rfl, rfl, rfl, rfl, rfl, rfl, rfl, rfl, rfl, rfl,
    rfl, rfl, rfl, rfl, rfl, rfl, fun _ => rfl⟩, fun _ _ _ => rfl⟩

/-- C8: running any sequence of entity-accessor calls (counts and
snapshots) in any order leaves the world unchanged and gives each call
the result a first call would give: each call independently re-reads
the foreign data, with no caching and no effect on later calls. -/
theorem claim_C8_accessor_idempotent_order_insensitive :
    ∀ (w : World) (s : Scene) (cs : List AccCall),
      runAcc w s cs = (w, cs.map (evalAcc w.heap s)) := by
  intro w s cs
  induction cs with
  | nil => rfl
  | cons c cs ih => simp [runAcc, stepAcc, ih]

/-- C5: dropping an immutable Scene calls exactly the release-import
routine once on its pointer (and touches no copy-owned allocation);
dropping a SceneMut calls exactly the free-scene routine once on its
pointer; and constructing then immediately destroying an importer-owned
scene with all entity counts zero succeeds, emitting one release-import
call and leaving no live allocation behind. -/
theorem claim_C5_drop_release_exactly_once :
    (∀ (w : World) (s : Scene),
      (Scene.drop w s).trace = w.trace ++ [FFICall.releaseImport s.ptr] ∧
      (Scene.drop w s).liveImport = w.liveImport.erase s.ptr ∧
      (Scene.drop w s).liveCopy = w.liveCopy) ∧
    (∀ (w : World) (m : SceneMut),
      (SceneMut.drop w m).trace = w.trace ++ [FFICall.freeScene m.ptr] ∧
      (SceneMut.drop w m).liveCopy = w.liveCopy.erase m.ptr ∧
      (SceneMut.drop w m).liveImport = w.liveImport) ∧
    (Scene.num_meshes worldE.heap ⟨7⟩ = 0 ∧
     Scene.num_materials worldE.heap ⟨7⟩ = 0 ∧
     Scene.num_animations worldE.heap ⟨7⟩ = 0 ∧
     Scene.num_textures worldE.heap ⟨7⟩ = 0 ∧
     Scene.num_lights worldE.heap ⟨7⟩ = 0 ∧
     Scene.num_cameras worldE.heap ⟨7⟩ = 0 ∧
     (Scene.drop worldE ⟨7⟩).trace = [FFICall.releaseImport 7] ∧
     (Scene.drop worldE ⟨7⟩).liveImport = [] ∧
     (Scene.drop worldE ⟨7⟩).liveCopy = []) :=
  ⟨fun _ _ => ⟨rfl, rfl, rfl⟩, fun _ _ => ⟨rfl, rfl, rfl⟩,
    by decide, by decide, by decide, by decide, by decide, by decide,
    by decide, by decide, by decide⟩

/-- C9: the conversion wraps whatever pointer the copy routine left in
the null-initialized out slot, with no validity check: if the routine
wrote `p` the result wraps `p`, and if it failed without writing, the
result wraps the null pointer rather than surfacing an error; the
successful-copy case is exactly what the conversion on a world does. -/
theorem claim_C9_from_no_validity_check :
    (∀ copyOut : Option Nat,
      (SceneMut.from_raw copyOut).ptr = copyOut.getD 0) ∧
    SceneMut.from_raw none = ⟨0⟩ ∧
    (∀ (w : World) (s : Scene),
      (SceneMut.from_scene w s).2 =
        SceneMut.from_raw (some (aiCopyScene w s.ptr).2)) := by
  refine ⟨fun copyOut => ?_, rfl, fun w s => rfl⟩
  cases copyOut <;> rfl

/-- C10: the conversion consumes the source handle: before it returns,
it has called the copy routine and then the release-import routine on
the original importer-owned pointer, removing that pointer from the
live importer-owned allocations, and the handle it returns wraps the
fresh copy pointer, not the original. -/
theorem claim_C10_conversion_consumes_source :
    ∀ (w : World) (s : Scene),
      (SceneMut.from_scene w s).1.trace =
        w.trace ++ [FFICall.copyScene s.ptr (w.fresh + 1),
          FFICall.releaseImport s.ptr] ∧
      (SceneMut.from_scene w s).1.liveImport = w.liveImport.erase s.ptr ∧
      (SceneMut.from_scene w s).2.ptr = w.fresh + 1 := by
  intro w s
  refine ⟨?_, rfl, rfl⟩
  show (w.trace ++ [FFICall.copyScene s.ptr (w.fresh + 1)]) ++
    [FFICall.releaseImport s.ptr] = _
  simp

/-- C3 counterexample: at a concrete world holding one importer-owned
scene at address 5, converting that Scene into a SceneMut releases the
original pointer during the conversion (the release-import call for
address 5 is in the conversion trace) and leaves no live importer-owned
handle, refuting the claim that after the conversion the source handle
keeps its ownership of the original pointer with its own release
obligation, available for subsequent destruction. -/
theorem claim_C3_counterexample_source_released_during_conversion :
    FFICall.releaseImport 5 ∈ (SceneMut.from_scene worldC ⟨5⟩).1.trace ∧
    (SceneMut.from_scene worldC ⟨5⟩).1.liveImport = [] := by
  decide

/-- C3 amended: converting a Scene into a SceneMut yields a handle over
a fresh deep copy, observably equal to the source at the moment of
conversion; the conversion consumes the source handle, whose destructor
releases the original pointer via the release-import routine before the
conversion returns; the copy is a distinct pointer with its own
free-scene release obligation, and the release of the original does not
affect the mutable handle or its reads. -/
theorem claim_C3_amended_conversion_deep_copy :
    ∀ (w : World) (s : Scene), s.ptr ≤ w.fresh →
      (SceneMut.from_scene w s).1.heap (SceneMut.from_scene w s).2.ptr =
        w.heap s.ptr ∧
      (SceneMut.from_scene w s).2.ptr ≠ s.ptr ∧
      (SceneMut.from_scene w s).1.trace =
        w.trace ++ [FFICall.copyScene s.ptr (w.fresh + 1),
          FFICall.releaseImport s.ptr] ∧
      (SceneMut.from_scene w s).1.liveCopy = w.liveCopy ++ [w.fresh + 1] ∧
      (SceneMut.from_scene w s).1.liveImport = w.liveImport.erase s.ptr ∧
      SceneMut.num_meshes (SceneMut.from_scene w s).1.heap
        (SceneMut.from_scene w s).2 = Scene.num_meshes w.heap s := by
  intro w s h
  have hne : w.fresh + 1 ≠ s.ptr := by omega
  have hheap : (SceneMut.from_scene w s).1.heap
      (SceneMut.from_scene w s).2.ptr = w.heap s.ptr := by
    show (if w.fresh + 1 = s.ptr then deadScene
      else if w.fresh + 1 = w.fresh + 1 then w.heap s.ptr
      else w.heap (w.fresh + 1)) = w.heap s.ptr
    rw [if_neg hne, if_pos rfl]
  refine ⟨hheap, hne, ?_, rfl, rfl, ?_⟩
  · show (w.trace ++ [FFICall.copyScene s.ptr (w.fresh + 1)]) ++
      [FFICall.releaseImport s.ptr] = _
    simp
  · show ((SceneMut.from_scene w s).1.heap
      (SceneMut.from_scene w s).2.ptr).num_meshes = (w.heap s.ptr).num_meshes
    rw [hheap]

/-- Witness for the amended C3 at the concrete world `worldC` and the
Scene at address 5. -/
theorem claim_C3_amended_witness :
    (Scene.ptr ⟨5⟩ ≤ worldC.fresh) ∧
    ((SceneMut.from_scene worldC ⟨5⟩).1.heap
        (SceneMut.from_scene worldC ⟨5⟩).2.ptr = worldC.heap 5 ∧
     (SceneMut.from_scene worldC ⟨5⟩).2.ptr ≠ 5 ∧
     (SceneMut.from_scene worldC ⟨5⟩).1.trace =
       worldC.trace ++ [FFICall.copyScene 5 (worldC.fresh + 1),
         FFICall.releaseImport 5] ∧
     (SceneMut.from_scene worldC ⟨5⟩).1.liveCopy =
       worldC.liveCopy ++ [worldC.fresh + 1] ∧
     (SceneMut.from_scene worldC ⟨5⟩).1.liveImport =
       worldC.liveImport.erase 5 ∧
     SceneMut.num_meshes (SceneMut.from_scene worldC ⟨5⟩).1.heap
       (SceneMut.from_scene worldC ⟨5⟩).2 =
       Scene.num_meshes worldC.heap ⟨5⟩) :=
  ⟨by decide, claim_C3_amended_conversion_deep_copy worldC ⟨5⟩ (by decide)⟩

end AssimpRs
